import Mathlib

/-!
Verification of the batch-load and merge orchestration subsystem of the
`target-snowflake` Singer target.

The development shallowly embeds the code of `src/target_snowflake/` —
`connector.py` (the `SnowflakeConnector` DDL/type layer) and `sinks.py`
(the sink-local connector and `SnowflakeSink`) — as executable Lean
definitions, and proves or refutes the frozen specification claims about
them.  Machine strings are `String`, machine integers are `Nat`, SQL
statements are the exact strings the Python f-strings assemble, and the
effectful orchestration code is modelled by explicit traces of the
statements it executes.
-/

namespace TargetSnowflake

/-! ## Python string primitives

`str.upper` / `str.lower` as used by the source on ASCII identifiers:
character-wise case mapping. -/

/-- Embedding of Python's `str.upper` (character-wise; faithful on the ASCII
identifiers this code base manipulates). -/
def pyUpper (s : String) : String :=
  String.mk (s.data.map Char.toUpper)

/-- Embedding of Python's `str.lower` (character-wise). -/
def pyLower (s : String) : String :=
  String.mk (s.data.map Char.toLower)

theorem char_toNat_ofNat (n : Nat) (h : n.isValidChar) : (Char.ofNat n).toNat = n := by
  rw [Char.ofNat, dif_pos h]
  rfl

theorem char_toUpper_idem (c : Char) : c.toUpper.toUpper = c.toUpper := by
  unfold Char.toUpper
  by_cases h : c.toNat ≥ 97 ∧ c.toNat ≤ 122
  · rw [if_pos h]
    have hvalid : (c.toNat - 32).isValidChar := by
      refine Or.inl ?_
      omega
    have htn : (Char.ofNat (c.toNat - 32)).toNat = c.toNat - 32 :=
      char_toNat_ofNat _ hvalid
    rw [if_neg]
    rw [htn]
    omega
  · rw [if_neg h, if_neg h]

theorem pyUpper_idem (s : String) : pyUpper (pyUpper s) = pyUpper s := by
  unfold pyUpper
  cases s with
  | mk data =>
      simp only [List.map_map]
      exact congrArg String.mk (List.map_congr_left (fun c _ => char_toUpper_idem c))

/-! ## Identifier quoting (SQLAlchemy `IdentifierPreparer` for the Snowflake
dialect)

`connector.py` normalizes names through
`SnowflakeIdentifierPreparer(SnowflakeDialect()).format_collation`, which —
with the preparer's default `quote_case_sensitive_collations=True` — is the
preparer's `quote`: the identifier is wrapped in double quotes (with
embedded quotes doubled) exactly when it *requires* quoting, i.e. when its
lowercasing is a reserved word, its first character is a digit or `$`, it
contains a character outside `[A-Za-z0-9_$]`, or it differs from its own
lowercasing.  These dependency functions are embedded here so that the
repository's normalization logic (`prepare_column`,
`_get_column_selections`) can be stated over them. -/

/-- Characters the bare-identifier charset `^[A-Z0-9_$]+$` (case
insensitive) admits. -/
def legalIdentChar (c : Char) : Bool :=
  c.isAlpha || c.isDigit || c == '_' || c == '$'

/-- Representative reserved-word list of the Snowflake identifier preparer
(lower case).  The theorems below do not depend on its exact contents. -/
def reservedWords : List String :=
  ["all", "alter", "and", "any", "as", "between", "by", "case", "cast",
   "check", "column", "connect", "create", "cross", "current", "delete",
   "distinct", "drop", "else", "exists", "false", "following", "for",
   "from", "full", "grant", "group", "having", "ilike", "in", "increment",
   "inner", "insert", "intersect", "into", "is", "join", "lateral", "left",
   "like", "not", "null", "of", "on", "or", "order", "qualify", "regexp",
   "revoke", "right", "rlike", "row", "rows", "sample", "select", "set",
   "some", "start", "table", "tablesample", "then", "to", "trigger", "true",
   "try_cast", "union", "unique", "update", "using", "values", "when",
   "whenever", "where", "with"]

/-- SQLAlchemy `IdentifierPreparer._requires_quotes`.  (Python indexes
`value[0]`; identifiers here are never empty, and an empty string is
reported as requiring quotes through the charset test.) -/
def requiresQuotes (value : String) : Bool :=
  let lc := pyLower value
  reservedWords.contains lc
    || (match value.data with
        | [] => false
        | c :: _ => c.isDigit || c == '$')
    || !(!value.data.isEmpty && value.data.all legalIdentChar)
    || lc != value

/-- SQLAlchemy `IdentifierPreparer._escape_identifier`: double every
embedded quote character. -/
def escapeIdentifier (value : String) : String :=
  String.mk (value.data.flatMap (fun c => if c == '"' then ['"', '"'] else [c]))

/-- SQLAlchemy `IdentifierPreparer.quote` for the Snowflake preparer
(`initial_quote = '"'`): quote the identifier iff it requires quoting. -/
def quoteIdent (value : String) : String :=
  if requiresQuotes value then "\"" ++ escapeIdentifier value ++ "\"" else value

/-- `format_collation` of the Snowflake identifier preparer: with the
default `quote_case_sensitive_collations = True` this is `quote`. -/
def formatCollation (value : String) : String :=
  quoteIdent value

/-- Identifier normalization of `SnowflakeConnector.prepare_column`
(`connector.py:254-259`): if quoting the name per the dialect's rules
introduces a quote character, the column name is replaced by its upper
case; otherwise it passes through unchanged. -/
def normalize (name : String) : String :=
  if (formatCollation name).contains '"' then pyUpper name else name

/-- C8: identifier normalization is deterministic (it is a function) and
idempotent: for every name — names with colons, mixed case and reserved
words included — `normalize (normalize x) = normalize x`. -/
theorem c8_normalize_idempotent (x : String) : normalize (normalize x) = normalize x := by
  unfold normalize
  by_cases h : (formatCollation x).contains '"'
  · rw [if_pos h]
    by_cases h2 : (formatCollation (pyUpper x)).contains '"'
    · rw [if_pos h2, pyUpper_idem]
    · rw [if_neg h2]
  · rw [if_neg h, if_neg h]

/-! ## SQL column types

The engine types reachable from the two type mappers, with the rendering
`str(sql_type)` produces when SQLAlchemy interpolates them into SQL text. -/

inductive SqlType where
  | NUMBER
  | DOUBLE
  | VARCHAR (length : Nat)
  | VARIANT
  | TIMESTAMP_NTZ
  | DATE
  | TIME
  | BOOLEAN
  | DECIMAL
  deriving DecidableEq, Repr

/-- Rendering of each SQLAlchemy/snowflake-sqlalchemy type object under
`str(...)`, as interpolated into generated SQL (`sct.NUMBER` aliases
SQLAlchemy `DECIMAL` with default precision `None`, so `str(sct.NUMBER())`
is plain `DECIMAL`; `sct.DOUBLE` renders as FLOAT). -/
def sqlTypeName : SqlType → String
  | .NUMBER => "DECIMAL"
  | .DOUBLE => "FLOAT"
  | .VARCHAR n => "VARCHAR(" ++ toString n ++ ")"
  | .VARIANT => "VARIANT"
  | .TIMESTAMP_NTZ => "TIMESTAMP_NTZ"
  | .DATE => "DATE"
  | .TIME => "TIME"
  | .BOOLEAN => "BOOLEAN"
  | .DECIMAL => "DECIMAL"

/-- One property's JSON-schema type descriptor: the set of type tags, an
optional `format` hint and an optional `maxLength` constraint. -/
structure JsonSchema where
  typeTags : List String
  format : Option String := none
  maxLength : Option Nat := none
  deriving DecidableEq, Repr

/-- singer-sdk `_jsonschema_type_check`: does the descriptor's type-tag set
include the given tag. -/
def jsonschemaTypeCheck (js : JsonSchema) (tag : String) : Bool :=
  js.typeTags.contains tag

/-- singer-sdk `get_datelike_property_type`: the `format` hint when it is
one of `date-time` / `time` / `date`, else nothing. -/
def getDatelikeType (js : JsonSchema) : Option String :=
  match js.format with
  | some f => if f == "date-time" || f == "time" || f == "date" then some f else none
  | none => none

/-- Coarse model of the singer-sdk fallback `SQLConnector.to_sql_type`
(dependency code); only reached for non-string, non-integer, non-object,
non-array descriptors, which no claim exercises. -/
def sdkDefaultToSqlType (js : JsonSchema) : SqlType :=
  if jsonschemaTypeCheck js "boolean" then .BOOLEAN
  else if jsonschemaTypeCheck js "number" then .DECIMAL
  else .VARCHAR 16777216

/-- Legacy sink-local type mapper `SnowflakeConnector.to_sql_type`
(`sinks.py:128-165`).  Strings with a recognized date-like format map to
temporal types (the Python code tests `datelike_type in "time"`, a
substring test, which this embeds literally); any other string maps to
`VARCHAR(maxLength)` with 16777216 as the default — the declared
`maxLength` is NOT clamped.  Integers map to `NUMBER`, objects and arrays
to `VARIANT`. -/
def to_sql_type (js : JsonSchema) : SqlType :=
  if jsonschemaTypeCheck js "string" then
    match getDatelikeType js with
    | some dl =>
        if dl == "date-time" then .TIMESTAMP_NTZ
        else if ("time".splitOn dl).length > 1 then .TIME
        else if dl == "date" then .DATE
        else .VARCHAR (js.maxLength.getD 16777216)
    | none => .VARCHAR (js.maxLength.getD 16777216)
  else if jsonschemaTypeCheck js "integer" then .NUMBER
  else if jsonschemaTypeCheck js "object" then .VARIANT
  else if jsonschemaTypeCheck js "array" then .VARIANT
  else sdkDefaultToSqlType js

/-- Engine ceiling on string lengths, `SnowflakeConnector.max_varchar_length`
(`connector.py:77`). -/
def max_varchar_length : Nat := 16777216

/-- Modelled from the spec: the type mapper of the newer
`SnowflakeConnector` (`connector.py`).  Its handlers registered at
`connector.py:320-329` (integer to NUMBER, object/array to VARIANT, number
to DOUBLE, date-time to TIMESTAMP_NTZ) and the multiple-type rule of
`JSONSchemaToSnowflake` (`connector.py:49-54`) are in src; the string
branch — `VARCHAR(min(maxLength, max_varchar_length))`, defaulting to the
ceiling — lives in singer-sdk's `JSONSchemaToSQL` (not under `src/`) and is
modelled here per spec section 4.1, as pinned by the repository's own test
`src/tests/test_connector.py:55-62`. -/
def connector_to_sql_type (js : JsonSchema) : SqlType :=
  if js.typeTags.contains "object" || js.typeTags.contains "array" then .VARIANT
  else if js.typeTags.contains "integer" then .NUMBER
  else if js.typeTags.contains "number" then .DOUBLE
  else if js.typeTags.contains "string" then
    match getDatelikeType js with
    | some f =>
        if f == "date-time" then .TIMESTAMP_NTZ
        else if f == "time" then .TIME
        else .DATE
    | none => .VARCHAR (min (js.maxLength.getD max_varchar_length) max_varchar_length)
  else if js.typeTags.contains "boolean" then .BOOLEAN
  else .VARCHAR max_varchar_length

/-- C4: the claim says a declared `maxLength` of 20000000 yields a VARCHAR
of length exactly 16777216 (silently clamped).  The sink-local mapper
`to_sql_type` (`sinks.py:152-155`) does not clamp: it yields
`VARCHAR(20000000)`, contradicting the repository's own test
`src/tests/test_connector.py:60-62` and the connector's declared ceiling
`max_varchar_length` (`connector.py:77`), which the connector-side mapper
honours. -/
theorem c4_varchar_clamping_eval :
    to_sql_type { typeTags := ["string"], maxLength := some 20000000 } =
      SqlType.VARCHAR 20000000 ∧
    to_sql_type { typeTags := ["string"], maxLength := some 20000000 } ≠
      SqlType.VARCHAR 16777216 ∧
    connector_to_sql_type { typeTags := ["string"], maxLength := some 20000000 } =
      SqlType.VARCHAR max_varchar_length := by
  refine ⟨rfl, by decide, rfl⟩

/-! ## Load/Merge SQL builder of `connector.py`

`SnowflakeConnector._get_merge_from_stage_statement`
(`connector.py:385-427`) assembles the MERGE text from intermediate pieces;
each local of the Python function is embedded as a definition. -/

/-- One entry of `SnowflakeConnector._get_column_selections`
(`connector.py:365-383`): the quoted property name, its mapped SQL type and
the alias (upper-cased when the quoted form carries a quote character). -/
structure ColumnSelection where
  cleanPropertyName : String
  sqlType : SqlType
  cleanAlias : String
  deriving DecidableEq, Repr

/-- `SnowflakeConnector._get_column_selections` (`connector.py:365-383`). -/
def getColumnSelections (props : List (String × JsonSchema)) : List ColumnSelection :=
  props.map fun p =>
    let clean := formatCollation p.1
    { cleanPropertyName := clean
      sqlType := connector_to_sql_type p.2
      cleanAlias := if clean.contains '"' then pyUpper clean else clean }

/-- `_format_column_selections(..., "json_casting")` (`connector.py:350-358`):
the comma-separated `$1:name::TYPE as ALIAS` projection list. -/
def jsonCastingSelects (props : List (String × JsonSchema)) : String :=
  ", ".intercalate ((getColumnSelections props).map fun c =>
    let n := c.cleanPropertyName
    let t := sqlTypeName c.sqlType
    let a := c.cleanAlias
    s!"$1:{n}::{t} as {a}")

/-- `formatted_properties` (`connector.py:402`): every schema property,
passed through `format_collation`. -/
def formattedProperties (props : List (String × JsonSchema)) : List String :=
  props.map fun p => formatCollation p.1

/-- `formatted_key_properties` (`connector.py:403`). -/
def formattedKeyProperties (keys : List String) : List String :=
  keys.map formatCollation

/-- `join_expr` (`connector.py:404-406`). -/
def mergeJoinExpr (keys : List String) : String :=
  " and ".intercalate ((formattedKeyProperties keys).map fun k => s!"d.{k} = s.{k}")

/-- `matched_clause` (`connector.py:407-409`): one `d.col = s.col`
assignment per formatted property — ALL columns, key columns included. -/
def mergeMatchedClause (props : List (String × JsonSchema)) : String :=
  ", ".intercalate ((formattedProperties props).map fun c => s!"d.{c} = s.{c}")

/-- `not_matched_insert_cols` (`connector.py:410`). -/
def mergeInsertCols (props : List (String × JsonSchema)) : String :=
  ", ".intercalate (formattedProperties props)

/-- `not_matched_insert_values` (`connector.py:411-413`). -/
def mergeInsertValues (props : List (String × JsonSchema)) : String :=
  ", ".intercalate ((formattedProperties props).map fun c => s!"s.{c}")

/-- `dedup` (`connector.py:414-415`): the QUALIFY clause that keeps, per
key-column combination, the single row with the greatest `SEQ8()` value. -/
def mergeDedupClause (keys : List String) : String :=
  let dedupCols := ", ".intercalate (formattedKeyProperties keys)
  s!"QUALIFY ROW_NUMBER() OVER (PARTITION BY {dedupCols} ORDER BY SEQ8() DESC) = 1"

/-- The assembled MERGE text of
`SnowflakeConnector._get_merge_from_stage_statement` (`connector.py:416-427`). -/
def mergeFromStageStatement (fullTableName : String) (props : List (String × JsonSchema))
    (syncId fileFormat : String) (keys : List String) : String :=
  "merge into " ++ fullTableName ++ " d using " ++
    "(select " ++ jsonCastingSelects props ++ " from '@~/target-snowflake/" ++ syncId ++ "'" ++
    "(file_format => " ++ fileFormat ++ ") " ++ mergeDedupClause keys ++ ") s " ++
    "on " ++ mergeJoinExpr keys ++ " " ++
    "when matched then update set " ++ mergeMatchedClause props ++ " " ++
    "when not matched then insert (" ++ mergeInsertCols props ++ ") " ++
    "values (" ++ mergeInsertValues props ++ ")"

/-- Column list whose assignments form the WHEN MATCHED update
(`connector.py:407-409`). -/
def matchedUpdateColumns (props : List (String × JsonSchema)) : List String :=
  formattedProperties props

/-- Column list of the WHEN NOT MATCHED insert (`connector.py:410-413`). -/
def insertColumns (props : List (String × JsonSchema)) : List String :=
  formattedProperties props

/-- Key columns equated between target `d` and staged source `s` by the ON
condition (`connector.py:403-406`). -/
def joinColumns (keys : List String) : List String :=
  formattedKeyProperties keys

/-- Stated from the spec's words, for comparison with the source: C5 reads
"the WHEN MATCHED branch updates exactly the non-key columns". -/
def specMatchedUpdateColumns (props : List (String × JsonSchema)) (keys : List String) :
    List String :=
  (formattedProperties props).filter fun c => !(formattedKeyProperties keys).contains c

/-- C5 counterexample: for schema `{id: integer, name: string}` with key
`[id]`, the WHEN MATCHED clause of the generated merge assigns BOTH
columns — `d.id = s.id, d.name = s.name` — so it also reassigns the key
column `id`, while the claim's "exactly the non-key columns" would be
`[name]` alone.  The claim as stated is false on the code. -/
theorem c5_counterexample_key_column_updated :
    matchedUpdateColumns [("id", ⟨["integer"], none, none⟩), ("name", ⟨["string"], none, none⟩)] =
      ["id", "name"] ∧
    specMatchedUpdateColumns
        [("id", ⟨["integer"], none, none⟩), ("name", ⟨["string"], none, none⟩)] ["id"] =
      ["name"] ∧
    matchedUpdateColumns [("id", ⟨["integer"], none, none⟩), ("name", ⟨["string"], none, none⟩)] ≠
      specMatchedUpdateColumns
        [("id", ⟨["integer"], none, none⟩), ("name", ⟨["string"], none, none⟩)] ["id"] ∧
    mergeMatchedClause [("id", ⟨["integer"], none, none⟩), ("name", ⟨["string"], none, none⟩)] =
      "d.id = s.id, d.name = s.name" := by
  refine ⟨rfl, rfl, by decide, rfl⟩

/-- C5 (amended): for every schema and non-empty key-property list whose
keys are schema properties, the WHEN MATCHED branch updates ALL columns
(each key column included — its assignment is a no-op because the join
equates the key columns), the WHEN NOT MATCHED branch inserts all columns,
and the join condition equates exactly the normalized key columns of
target and staged source. -/
theorem c5_merge_clause_columns (props : List (String × JsonSchema)) (keys : List String)
    (hk : keys ≠ []) (hsub : ∀ k ∈ keys, k ∈ props.map Prod.fst) :
    matchedUpdateColumns props = formattedProperties props ∧
    (∀ k ∈ keys, formatCollation k ∈ matchedUpdateColumns props) ∧
    insertColumns props = formattedProperties props ∧
    joinColumns keys = formattedKeyProperties keys ∧
    mergeMatchedClause props =
      ", ".intercalate ((matchedUpdateColumns props).map fun c => "d." ++ c ++ " = s." ++ c) := by
  refine ⟨rfl, ?_, rfl, rfl, ?_⟩
  · intro k hkmem
    obtain ⟨p, hp, hpk⟩ := List.mem_map.mp (hsub k hkmem)
    exact List.mem_map.mpr ⟨p, hp, by rw [hpk]⟩
  · have h : ∀ c : String, (s!"d.{c} = s.{c}" : String) = "d." ++ c ++ " = s." ++ c := by
      intro c
      show "d." ++ c ++ " = s." ++ c ++ "" = "d." ++ c ++ " = s." ++ c
      exact String.append_empty _
    exact congrArg (", ".intercalate) (List.map_congr_left fun c _ => h c)

/-- C5 witness: the amended theorem applied at the concrete schema
`{id: integer, name: string}` with key list `[id]`. -/
theorem c5_merge_clause_columns_witness :
    formatCollation "id" ∈
      matchedUpdateColumns
        [("id", ⟨["integer"], none, none⟩), ("name", ⟨["string"], none, none⟩)] :=
  (c5_merge_clause_columns
      [("id", ⟨["integer"], none, none⟩), ("name", ⟨["string"], none, none⟩)] ["id"]
      (by decide) (by decide)).2.1 "id" (by decide)

/-! ## Legacy sink-local merge builder (`sinks.py`)

`SnowflakeSink._get_merge_statement` (`sinks.py:285-316`) builds the same
merge shape from upper-cased property names, with NO dedup clause in the
staged-source subquery. -/

/-- The `column_selections` list of `SnowflakeSink._get_merge_statement`
(`sinks.py:288-291`), joined: `$1:name::TYPE as "NAME"` per property, typed
through the sink-local `to_sql_type`. -/
def sinkColumnSelections (props : List (String × JsonSchema)) : String :=
  ", ".intercalate (props.map fun p =>
    let n := p.1
    let t := sqlTypeName (to_sql_type p.2)
    let a := pyUpper p.1
    s!"$1:{n}::{t} as \"{a}\"")

/-- The assembled MERGE text of `SnowflakeSink._get_merge_statement`
(`sinks.py:285-316`).  Its `using (select ... from stage (file_format =>
...))` subquery contains no QUALIFY/dedup clause. -/
def sinkMergeStatement (fullTableName : String) (props : List (String × JsonSchema))
    (syncId fileFormat : String) (keys : List String) : String :=
  let upperProps := props.map fun p => pyUpper p.1
  let upperKeys := keys.map pyUpper
  let joinExpr := " and ".intercalate (upperKeys.map fun k => s!"d.\"{k}\" = s.\"{k}\"")
  let matchedClause := ", ".intercalate (upperProps.map fun c => s!"d.\"{c}\" = s.\"{c}\"")
  let insertCols := ", ".intercalate upperProps
  let insertValues := ", ".intercalate (upperProps.map fun c => s!"s.\"{c}\"")
  "merge into " ++ fullTableName ++ " d using " ++
    "(select " ++ sinkColumnSelections props ++ " from '@~/target-snowflake/" ++ syncId ++ "'" ++
    "(file_format => " ++ fileFormat ++ ")) s " ++
    "on " ++ joinExpr ++ " " ++
    "when matched then update set " ++ matchedClause ++ " " ++
    "when not matched then insert (" ++ insertCols ++ ") " ++
    "values (" ++ insertValues ++ ")"

/-! ## Denotational semantics of the generated merge statements

A staged record, after the JSON-cast projection, is a list of column
values in schema order; a batch is the list of its records in staged scan
order (`SEQ8()` assigns strictly increasing values along this order, so
"greatest `SEQ8()`" means "latest in the list"). -/

/-- A projected staged record: one value per schema column. -/
abbrev Row := List String

/-- The key-column combination of a row, for key columns at the given
positions. -/
def rowKey (ks : List Nat) (r : Row) : List String :=
  ks.map fun i => r.getD i ""

/-- Semantics of the connector statement's dedup clause
(`connector.py:414-415`): `QUALIFY ROW_NUMBER() OVER (PARTITION BY keys
ORDER BY SEQ8() DESC) = 1` keeps, within each key partition, only the row
with the greatest sequence value — the last row of the partition in scan
order. -/
def dedupLastWins (key : Row → List String) : List Row → List Row
  | [] => []
  | r :: rs =>
      if rs.any (fun r2 => key r2 == key r) then dedupLastWins key rs
      else r :: dedupLastWins key rs

/-- Semantics of the staged-source subquery of the sink-built merge
statement (`sinks.py:307-309`): the projection of every staged row, in scan
order, with no dedup — duplicate-key rows all reach the join. -/
def sinkMergeStagedSource (staged : List Row) : List Row :=
  staged

/-- Semantics of executing the connector-built MERGE (`connector.py:416-427`)
against a target table: the staged source is deduplicated, every target row
whose key matches a source row is updated (the WHEN MATCHED clause assigns
every column, so the row becomes the source row), and every source row
with no matching target key is inserted. -/
def mergeExec (key : Row → List String) (table staged : List Row) : List Row :=
  let s := dedupLastWins key staged
  let updated := table.map fun t =>
    match s.find? (fun r => key r == key t) with
    | some r => r
    | none => t
  let inserted := s.filter fun r => !(table.any fun t => key t == key r)
  updated ++ inserted

/-- Boolean test that `needle` occurs contiguously inside `hay`. -/
def hasSubstr (needle : List Char) : List Char → Bool
  | [] => needle.isEmpty
  | c :: t => needle.isPrefixOf (c :: t) || hasSubstr needle t

set_option maxRecDepth 10000 in
/-- C1 counterexample: the merge statement built by
`SnowflakeSink._get_merge_statement` for a staged batch does not
deduplicate the staged source: for the batch `[["1", "Alice"], ["1",
"Bob"]]` — two records with the same key `"1"` and different sequence
positions — its staged source keeps BOTH rows for that key (not exactly
one), and the generated statement text contains no QUALIFY clause at all. -/
theorem c1_counterexample_sink_merge_no_dedup :
    rowKey [0] ["1", "Alice"] = rowKey [0] ["1", "Bob"] ∧
    (["1", "Alice"] : Row) ≠ ["1", "Bob"] ∧
    ((sinkMergeStagedSource [["1", "Alice"], ["1", "Bob"]]).filter
        (fun r => rowKey [0] r == ["1"])).length = 2 ∧
    ((sinkMergeStagedSource [["1", "Alice"], ["1", "Bob"]]).filter
        (fun r => rowKey [0] r == ["1"])).length ≠ 1 ∧
    hasSubstr "QUALIFY".data (sinkMergeStatement "DB.SC.T"
        [("id", ⟨["integer"], none, none⟩), ("name", ⟨["string"], none, none⟩)]
        "sync1" "ff1" ["id"]).data = false ∧
    sinkMergeStatement "DB.SC.T"
        [("id", ⟨["integer"], none, none⟩), ("name", ⟨["string"], none, none⟩)]
        "sync1" "ff1" ["id"] =
      "merge into DB.SC.T d using (select $1:id::DECIMAL as \"ID\", " ++
        "$1:name::VARCHAR(16777216) as \"NAME\" from '@~/target-snowflake/sync1'" ++
        "(file_format => ff1)) s on d.\"ID\" = s.\"ID\" when matched then update set " ++
        "d.\"ID\" = s.\"ID\", d.\"NAME\" = s.\"NAME\" when not matched then insert " ++
        "(ID, NAME) values (s.\"ID\", s.\"NAME\")" := by
  refine ⟨rfl, by decide, rfl, by decide, by decide, rfl⟩

theorem upsertFilter_of_any (key : Row → List String) (r2 : Row) :
    ∀ table : List Row, table.Pairwise (fun a b => key a ≠ key b) →
      (table.any fun t => key t == key r2) = true →
      ((table.map fun t =>
          match List.find? (fun r => key r == key t) [r2] with
          | some r => r
          | none => t).filter fun x => key x == key r2) = [r2] := by
  intro table
  induction table with
  | nil => intro _ h; simp at h
  | cons t ts ih =>
      intro hp hmem
      rw [List.pairwise_cons] at hp
      obtain ⟨h1, hp2⟩ := hp
      by_cases ht : key t = key r2
      · have hfind : List.find? (fun r => key r == key t) [r2] = some r2 := by
          simp [List.find?, ht]
        have htail : ((ts.map fun t =>
            match List.find? (fun r => key r == key t) [r2] with
            | some r => r
            | none => t).filter fun x => key x == key r2) = [] := by
          refine List.filter_eq_nil_iff.mpr ?_
          intro a ha
          obtain ⟨t2, ht2, rfl⟩ := List.mem_map.mp ha
          have hne : key t2 ≠ key r2 := fun hcon => (ht ▸ h1 t2 ht2) hcon.symm
          have hc : (key r2 == key t2) = false := beq_eq_false_iff_ne.mpr (Ne.symm hne)
          have hfind2 : List.find? (fun r => key r == key t2) [r2] = none := by
            simp [List.find?, hc]
          rw [hfind2]
          simp [hne]
        simp only [List.map_cons, List.filter_cons, hfind, htail]
        simp
      · have hmem2 : (ts.any fun x => key x == key r2) = true := by
          simp only [List.any_cons, Bool.or_eq_true, beq_iff_eq] at hmem
          rcases hmem with h | h
          · exact absurd h ht
          · simpa using h
        have hc2 : (key r2 == key t) = false := beq_eq_false_iff_ne.mpr fun hh => ht hh.symm
        have hfind : List.find? (fun r => key r == key t) [r2] = none := by
          simp [List.find?, hc2]
        have hcond : (key t == key r2) = false := by
          simpa using ht
        simp only [List.map_cons, List.filter_cons, hfind, hcond]
        simpa using ih hp2 hmem2

/-- C1 (amended): the merge statement built by
`SnowflakeConnector._get_merge_from_stage_statement` deduplicates the
staged source before the join — one row per distinct key combination, the
tie-break keeping the row with the greatest `SEQ8()` value (last writer
wins) — so executing it against any target table with pairwise-distinct
keys on a batch of two same-key records leaves exactly one row for that
key, carrying the values of the higher-sequence record.  (The legacy
`SnowflakeSink._get_merge_statement` performs no such dedup; see the
counterexample.) -/
theorem c1_merge_dedup_last_writer_wins
    (ks : List Nat) (hks : ks ≠ []) (table : List Row)
    (htable : table.Pairwise fun a b => rowKey ks a ≠ rowKey ks b)
    (r1 r2 : Row) (hkey : rowKey ks r1 = rowKey ks r2) :
    dedupLastWins (rowKey ks) [r1, r2] = [r2] ∧
    (mergeExec (rowKey ks) table [r1, r2]).filter
      (fun t => rowKey ks t == rowKey ks r2) = [r2] := by
  have hdedup : dedupLastWins (rowKey ks) [r1, r2] = [r2] := by
    simp [dedupLastWins, hkey]
  refine ⟨hdedup, ?_⟩
  show ((table.map fun t =>
      match (dedupLastWins (rowKey ks) [r1, r2]).find? (fun r => rowKey ks r == rowKey ks t) with
      | some r => r
      | none => t) ++ (dedupLastWins (rowKey ks) [r1, r2]).filter
        (fun r => !(table.any fun t => rowKey ks t == rowKey ks r))).filter
      (fun t => rowKey ks t == rowKey ks r2) = [r2]
  rw [hdedup, List.filter_append]
  by_cases hmem : (table.any fun t => rowKey ks t == rowKey ks r2) = true
  · have hins : (([r2].filter fun r => !(table.any fun t => rowKey ks t == rowKey ks r)).filter
        fun t => rowKey ks t == rowKey ks r2) = [] := by
      simp [List.filter, hmem]
    rw [hins, List.append_nil]
    exact upsertFilter_of_any (rowKey ks) r2 table htable hmem
  · have hall : ∀ x ∈ table, ¬ rowKey ks x = rowKey ks r2 := by
      simpa using hmem
    have hins : (([r2].filter fun r => !(table.any fun t => rowKey ks t == rowKey ks r)).filter
        fun t => rowKey ks t == rowKey ks r2) = [r2] := by
      have : (table.any fun t => rowKey ks t == rowKey ks r2) = false := by
        simpa using hall
      simp [List.filter, this]
    rw [hins]
    have hmapfilter : ((table.map fun t =>
        match List.find? (fun r => rowKey ks r == rowKey ks t) [r2] with
        | some r => r
        | none => t).filter fun x => rowKey ks x == rowKey ks r2) = [] := by
      refine List.filter_eq_nil_iff.mpr ?_
      intro a ha
      obtain ⟨t2, ht2, rfl⟩ := List.mem_map.mp ha
      have hne : rowKey ks t2 ≠ rowKey ks r2 := hall t2 ht2
      have hc : (rowKey ks r2 == rowKey ks t2) = false :=
        beq_eq_false_iff_ne.mpr (Ne.symm hne)
      have hfind2 : List.find? (fun r => rowKey ks r == rowKey ks t2) [r2] = none := by
        simp [List.find?, hc]
      rw [hfind2]
      simp [hne]
    rw [hmapfilter]
    rfl

/-- C1 witness: the amended theorem at key column 0, target table
`[["1", "Old"]]` and the staged batch `[["1", "Alice"], ["1", "Bob"]]`. -/
theorem c1_merge_dedup_last_writer_wins_witness :
    dedupLastWins (rowKey [0]) [["1", "Alice"], ["1", "Bob"]] = [["1", "Bob"]] ∧
    (mergeExec (rowKey [0]) [["1", "Old"]] [["1", "Alice"], ["1", "Bob"]]).filter
      (fun t => rowKey [0] t == rowKey [0] ["1", "Bob"]) = [["1", "Bob"]] :=
  c1_merge_dedup_last_writer_wins [0] (by decide) [["1", "Old"]] (by simp)
    ["1", "Alice"] ["1", "Bob"] (by decide)

/-! ## Batch orchestration: `SnowflakeSink.process_batch_files`
(`sinks.py:327-390`)

The body is a `try` block — PUT each file, create the target schema,
create the file format, prepare the table, execute the merge — followed by
a bare `finally` block — drop the file format, remove the staged files,
and (when `clean_up_batch_files` is set) delete the local files.  Each
statement execution either succeeds or raises; a run is modelled by the
outcome of every step, its meaning by the list of steps reached and the
exception that propagates.  Python semantics: the `finally` block runs on
every exit; an exception raised inside `finally` supersedes the in-flight
one; a failing statement aborts the rest of its block. -/

inductive BatchStep where
  | putFile
  | createSchema
  | createFileFormat
  | prepareTable
  | mergeIntoTable
  | dropFileFormat
  | removeStagedFiles
  | removeLocalFiles
  deriving DecidableEq, Repr

/-- Outcome of every potentially-raising step of one
`process_batch_files` run (`none` = the step succeeds when reached), plus
the `clean_up_batch_files` config flag. -/
structure BatchRun where
  putErr : Option String := none
  createSchemaErr : Option String := none
  fileFormatErr : Option String := none
  prepareErr : Option String := none
  mergeErr : Option String := none
  dropFormatErr : Option String := none
  removeStagedErr : Option String := none
  removeLocalErr : Option String := none
  cleanUpBatchFiles : Bool := true
  deriving DecidableEq, Repr

/-- The `try` block of `process_batch_files` (`sinks.py:339-374`): steps
reached in order, and the first exception raised, if any. -/
def tryPhase (o : BatchRun) : List BatchStep × Option String :=
  match o.putErr with
  | some e => ([.putFile], some e)
  | none =>
  match o.createSchemaErr with
  | some e => ([.putFile, .createSchema], some e)
  | none =>
  match o.fileFormatErr with
  | some e => ([.putFile, .createSchema, .createFileFormat], some e)
  | none =>
  match o.prepareErr with
  | some e => ([.putFile, .createSchema, .createFileFormat, .prepareTable], some e)
  | none =>
  match o.mergeErr with
  | some e =>
      ([.putFile, .createSchema, .createFileFormat, .prepareTable, .mergeIntoTable], some e)
  | none =>
      ([.putFile, .createSchema, .createFileFormat, .prepareTable, .mergeIntoTable], none)

/-- The `finally` block of `process_batch_files` (`sinks.py:375-390`):
drop the file format, remove the staged files, then (under the
`clean_up_batch_files` flag) delete local files.  No step is wrapped in
its own handler, so a failing cleanup step aborts the remaining ones and
its exception escapes the block. -/
def finallyPhase (o : BatchRun) : List BatchStep × Option String :=
  match o.dropFormatErr with
  | some e => ([.dropFileFormat], some e)
  | none =>
  match o.removeStagedErr with
  | some e => ([.dropFileFormat, .removeStagedFiles], some e)
  | none =>
  if o.cleanUpBatchFiles then
    match o.removeLocalErr with
    | some e => ([.dropFileFormat, .removeStagedFiles, .removeLocalFiles], some e)
    | none => ([.dropFileFormat, .removeStagedFiles, .removeLocalFiles], none)
  else ([.dropFileFormat, .removeStagedFiles], none)

/-- Whole-run semantics of `process_batch_files`: the `finally` block runs
after the `try` block on every path, and an exception raised inside
`finally` supersedes the try-block exception (Python `try/finally`). -/
def process_batch_files (o : BatchRun) : List BatchStep × Option String :=
  let t := tryPhase o
  let f := finallyPhase o
  (t.1 ++ f.1,
   match f.2 with
   | some e2 => some e2
   | none => t.2)

/-- C2 counterexample: the claim quantifies over EVERY run in which
staging has begun and a main step raises, but in the run where the merge
raises and the file-format drop itself fails, the staged-file removal is
never executed — the `finally` block aborts at its first failing
statement — and the exception that propagates is not the original one.
So "the cleanup steps are still executed before the exception propagates"
is false on this code as universally stated. -/
theorem c2_counterexample_drop_failure_skips_staged_removal :
    (tryPhase { mergeErr := some "merge exploded", dropFormatErr := some "drop exploded" }).2 =
      some "merge exploded" ∧
    BatchStep.removeStagedFiles ∉
      (process_batch_files
        { mergeErr := some "merge exploded", dropFormatErr := some "drop exploded" }).1 ∧
    (process_batch_files
        { mergeErr := some "merge exploded", dropFormatErr := some "drop exploded" }).2 ≠
      some "merge exploded" := by
  refine ⟨rfl, by decide, by decide⟩

/-- C2 (amended): once staging has begun, the `finally` block runs on
every exit path — success, or any of the PUT / file-format /
table-preparation / merge steps raising — and, provided the cleanup steps
themselves do not raise, both cleanup steps (dropping the sync attempt's
file format and removing its staged files) are executed and the original
try-block exception is the one that propagates to the caller.  (When a
cleanup step itself fails, the remaining cleanup is skipped and the
cleanup failure propagates instead; see the counterexample and C3.) -/
theorem c2_cleanup_runs_on_every_exit_path (o : BatchRun)
    (hdrop : o.dropFormatErr = none) (hstaged : o.removeStagedErr = none)
    (hlocal : o.removeLocalErr = none) :
    BatchStep.dropFileFormat ∈ (process_batch_files o).1 ∧
    BatchStep.removeStagedFiles ∈ (process_batch_files o).1 ∧
    ∀ e, (tryPhase o).2 = some e → (process_batch_files o).2 = some e := by
  have hfin : BatchStep.dropFileFormat ∈ (finallyPhase o).1 ∧
      BatchStep.removeStagedFiles ∈ (finallyPhase o).1 ∧ (finallyPhase o).2 = none := by
    cases hc : o.cleanUpBatchFiles <;>
      simp [finallyPhase, hdrop, hstaged, hlocal, hc]
  refine ⟨?_, ?_, ?_⟩
  · exact List.mem_append.mpr (Or.inr hfin.1)
  · exact List.mem_append.mpr (Or.inr hfin.2.1)
  · intro e he
    simp [process_batch_files, hfin.2.2, he]

/-- C2 witness: the run in which the merge raises and every cleanup step
succeeds — both cleanup steps execute and the merge error propagates. -/
theorem c2_cleanup_runs_on_every_exit_path_witness :
    BatchStep.dropFileFormat ∈ (process_batch_files { mergeErr := some "merge failed" }).1 ∧
    BatchStep.removeStagedFiles ∈ (process_batch_files { mergeErr := some "merge failed" }).1 ∧
    (process_batch_files { mergeErr := some "merge failed" }).2 = some "merge failed" := by
  have h := c2_cleanup_runs_on_every_exit_path { mergeErr := some "merge failed" } rfl rfl rfl
  exact ⟨h.1, h.2.1, h.2.2 "merge failed" rfl⟩

theorem removeStaged_not_mem_tryPhase (o : BatchRun) :
    BatchStep.removeStagedFiles ∉ (tryPhase o).1 := by
  cases h1 : o.putErr <;> cases h2 : o.createSchemaErr <;> cases h3 : o.fileFormatErr <;>
    cases h4 : o.prepareErr <;> cases h5 : o.mergeErr <;>
      simp [tryPhase, h1, h2, h3, h4, h5]

/-- C3 counterexample: in the run where the merge raises `"merge failed"`
and the subsequent `drop file format` cleanup raises `"drop failed"`, the
exception that reaches the caller is the cleanup failure — not the
original error — so the claim that a cleanup failure "never replaces or
suppresses" the original error is false on this code. -/
theorem c3_counterexample_cleanup_masks_original_error :
    (tryPhase { mergeErr := some "merge failed", dropFormatErr := some "drop failed" }).2 =
      some "merge failed" ∧
    (process_batch_files
        { mergeErr := some "merge failed", dropFormatErr := some "drop failed" }).2 =
      some "drop failed" ∧
    (process_batch_files
        { mergeErr := some "merge failed", dropFormatErr := some "drop failed" }).2 ≠
      some "merge failed" := by
  refine ⟨rfl, rfl, by decide⟩

/-- C3 (amended): the `finally` block of `process_batch_files` wraps no
cleanup step in a handler, so when the load/merge step raises E and a
cleanup step raises E2, the cleanup failure is neither caught nor logged:
E2 — not E — propagates to the caller, and when the failing cleanup step
is the file-format drop, the staged-file removal never executes. -/
theorem c3_cleanup_failure_masks_original (o : BatchRun) (e e2 : String)
    (htry : (tryPhase o).2 = some e) (hfin : (finallyPhase o).2 = some e2) :
    (process_batch_files o).2 = some e2 ∧
    (o.dropFormatErr = some e2 →
      BatchStep.removeStagedFiles ∉ (process_batch_files o).1) := by
  constructor
  · simp [process_batch_files, hfin]
  · intro hdrop
    have hfin1 : (finallyPhase o).1 = [BatchStep.dropFileFormat] := by
      simp [finallyPhase, hdrop]
    intro hmem
    rcases List.mem_append.mp hmem with h | h
    · exact removeStaged_not_mem_tryPhase o h
    · rw [hfin1] at h
      simp at h

/-- C3 witness: the amended theorem at the run where the merge raises
`"merge failed"` and the file-format drop raises `"drop failed"`. -/
theorem c3_cleanup_failure_masks_original_witness :
    (process_batch_files
        { mergeErr := some "merge failed", dropFormatErr := some "drop failed" }).2 =
      some "drop failed" ∧
    BatchStep.removeStagedFiles ∉
      (process_batch_files
        { mergeErr := some "merge failed", dropFormatErr := some "drop failed" }).1 := by
  have h := c3_cleanup_failure_masks_original
    { mergeErr := some "merge failed", dropFormatErr := some "drop failed" }
    "merge failed" "drop failed" rfl rfl
  exact ⟨h.1, h.2 rfl⟩

/-! ## Schema differ: column-type adaptation -/

/-- Modelled from the spec: the type-compatibility lattice join computed
by singer-sdk's `SQLConnector.merge_sql_types`, which `sinks.py:104` calls
and which is not under `src/`.  Per spec section 3: equal types join to
themselves, the exact-numeric type widens to the floating-point type,
fixed-length strings join to the wider length, and every remaining pair
joins to the semi-structured catch-all (`VARIANT`). -/
def merge_sql_types (a b : SqlType) : SqlType :=
  if a = b then a
  else
    match a, b with
    | .NUMBER, .DOUBLE | .DOUBLE, .NUMBER => .DOUBLE
    | .VARCHAR n, .VARCHAR m => .VARCHAR (max n m)
    | _, _ => .VARIANT

/-- `SnowflakeConnector._adapt_column_type` (`sinks.py:76-126`;
`connector.py:635-665` wraps the same superclass algorithm with logging):
when `str(sql_type)` equals `str(current_type)`, no-op; otherwise compute
the compatible type with `merge_sql_types`; when its rendering equals the
current one, no-op; otherwise emit `ALTER COLUMN ... SET DATA TYPE` to the
compatible type (`allow_column_alter` is `True`).  Returns the emitted
ALTER target, if any, and the column type afterwards. -/
def adapt_column_type (current newType : SqlType) : Option SqlType × SqlType :=
  if sqlTypeName newType == sqlTypeName current then (none, current)
  else
    let compatible := merge_sql_types current newType
    if sqlTypeName compatible == sqlTypeName current then (none, current)
    else (some compatible, compatible)

theorem merge_sql_types_absorb (c n : SqlType) :
    merge_sql_types (merge_sql_types c n) n = merge_sql_types c n := by
  cases c <;> cases n <;> try decide
  case VARCHAR.VARCHAR a b =>
    by_cases hab : a = b
    · subst hab
      simp [merge_sql_types]
    · have h1 : merge_sql_types (.VARCHAR a) (.VARCHAR b) = .VARCHAR (max a b) := by
        simp [merge_sql_types, hab]
      rw [h1]
      by_cases h2 : max a b = b
      · simp [merge_sql_types, h2]
      · have hne : SqlType.VARCHAR (max a b) ≠ .VARCHAR b := by simp [h2]
        simp only [merge_sql_types, if_neg hne]
        rw [Nat.max_assoc, Nat.max_self]
  all_goals simp [merge_sql_types]

/-- C6: schema reconciliation is idempotent: running `_adapt_column_type`
once and then again with the same incoming type against the column state
the first run produced emits no DDL the second time; and when the lattice
join of the existing type and the new type equals the existing type, no
ALTER is emitted at all. -/
theorem c6_adapt_column_type_idempotent (c n : SqlType) :
    adapt_column_type (adapt_column_type c n).2 n = (none, (adapt_column_type c n).2) ∧
    (merge_sql_types c n = c → (adapt_column_type c n).1 = none) := by
  constructor
  · by_cases h1 : (sqlTypeName n == sqlTypeName c) = true
    · simp [adapt_column_type, h1]
    · by_cases h2 : (sqlTypeName (merge_sql_types c n) == sqlTypeName c) = true
      · simp [adapt_column_type, h1, h2]
      · have habs := merge_sql_types_absorb c n
        by_cases h3 : (sqlTypeName n == sqlTypeName (merge_sql_types c n)) = true
        · simp [adapt_column_type, h1, h2, h3]
        · simp [adapt_column_type, h1, h2, h3, habs]
  · intro hj
    by_cases h1 : (sqlTypeName n == sqlTypeName c) = true
    · simp [adapt_column_type, h1]
    · have h2 : (sqlTypeName (merge_sql_types c n) == sqlTypeName c) = true := by
        rw [hj]
        exact beq_self_eq_true _
      simp [adapt_column_type, h1, h2]

/-- C6 witness: adapting NUMBER to DOUBLE once emits the widening ALTER;
re-running on the widened column emits nothing; and adapting DOUBLE to
NUMBER (whose join is the existing DOUBLE) emits no ALTER. -/
theorem c6_adapt_column_type_idempotent_witness :
    adapt_column_type (adapt_column_type .NUMBER .DOUBLE).2 .DOUBLE =
      (none, (adapt_column_type .NUMBER .DOUBLE).2) ∧
    (adapt_column_type .DOUBLE .NUMBER).1 = none :=
  ⟨(c6_adapt_column_type_idempotent .NUMBER .DOUBLE).1,
   (c6_adapt_column_type_idempotent .DOUBLE .NUMBER).2 (by decide)⟩

/-! ## Per-instance table-columns cache (`connector.py`)

`SnowflakeConnector.__init__` creates `self.table_cache = {}`
(`connector.py:80-83`); `get_table_columns` (`connector.py:85-115`)
returns the cached entry when present and otherwise inspects the
warehouse and populates the cache.  The state below tracks one table: its
live physical columns in the warehouse and the cache entry for it. -/

structure ConnectorState where
  physicalColumns : List (String × SqlType)
  tableCache : Option (List (String × SqlType))
  deriving DecidableEq, Repr

/-- `SnowflakeConnector.get_table_columns` (`connector.py:85-115`): cache
hit returns the cached columns unchanged; a miss reads the warehouse
metadata and stores it in `table_cache`. -/
def get_table_columns (s : ConnectorState) : List (String × SqlType) × ConnectorState :=
  match s.tableCache with
  | some cols => (cols, s)
  | none => (s.physicalColumns, { s with tableCache := some s.physicalColumns })

/-- Effect of executing the emitted `ALTER TABLE ... ALTER COLUMN ... SET
DATA TYPE` against the warehouse: the named physical column's type
changes. -/
def alterPhysical (cols : List (String × SqlType)) (col : String) (t : SqlType) :
    List (String × SqlType) :=
  cols.map fun p => if p.1 == col then (p.1, t) else p

/-- `_adapt_column_type` on the connector state (`connector.py:635-665`,
delegating to the superclass algorithm embedded as `adapt_column_type`;
the current type is read through `get_table_columns`, i.e. through the
cache).  The ALTER, when emitted, is executed against the warehouse;
`table_cache` is not touched anywhere on this DDL path. -/
def adapt_column_type_stateful (s : ConnectorState) (col : String) (newType : SqlType) :
    ConnectorState × Option SqlType :=
  let read := get_table_columns s
  match read.1.find? fun p => p.1 == col with
  | none => (read.2, none)
  | some p =>
      match (adapt_column_type p.2 newType).1 with
      | none => (read.2, none)
      | some t =>
          ({ read.2 with physicalColumns := alterPhysical read.2.physicalColumns col t },
           some t)

/-- C7 counterexample: populate the cache for a table whose column `A` is
NUMBER, issue the ALTER-emitting DDL `_adapt_column_type A DOUBLE` — the
warehouse column becomes DOUBLE — and the next `get_table_columns` still
returns the stale cached NUMBER column set, not the post-DDL physical
one.  The claimed invariant (cache invalidated on every DDL) is false on
this code. -/
theorem c7_counterexample_stale_cache_after_ddl :
    (adapt_column_type_stateful
        (get_table_columns ⟨[("A", .NUMBER)], none⟩).2 "A" .DOUBLE).2 = some .DOUBLE ∧
    ((adapt_column_type_stateful
        (get_table_columns ⟨[("A", .NUMBER)], none⟩).2 "A" .DOUBLE).1).physicalColumns =
      [("A", SqlType.DOUBLE)] ∧
    (get_table_columns
        (adapt_column_type_stateful
          (get_table_columns ⟨[("A", .NUMBER)], none⟩).2 "A" .DOUBLE).1).1 =
      [("A", SqlType.NUMBER)] ∧
    (get_table_columns
        (adapt_column_type_stateful
          (get_table_columns ⟨[("A", .NUMBER)], none⟩).2 "A" .DOUBLE).1).1 ≠
      (adapt_column_type_stateful
        (get_table_columns ⟨[("A", .NUMBER)], none⟩).2 "A" .DOUBLE).1.physicalColumns := by
  refine ⟨rfl, rfl, rfl, by decide⟩

/-- C7 (amended): no DDL path of this connector invalidates the
per-instance table-columns cache: `_adapt_column_type` leaves
`table_cache` unchanged even when it issues an ALTER, so every subsequent
`get_table_columns` call keeps returning the cached pre-DDL column set. -/
theorem c7_cache_never_invalidated_on_ddl (s : ConnectorState) (col : String)
    (t : SqlType) (c : List (String × SqlType)) (hc : s.tableCache = some c) :
    ((adapt_column_type_stateful s col t).1).tableCache = some c ∧
    (get_table_columns (adapt_column_type_stateful s col t).1).1 = c := by
  have hread : get_table_columns s = (c, s) := by
    simp [get_table_columns, hc]
  have hcache : ((adapt_column_type_stateful s col t).1).tableCache = some c := by
    unfold adapt_column_type_stateful
    rw [hread]
    dsimp only
    cases hfind : c.find? fun p => p.1 == col with
    | none => exact hc
    | some p =>
        dsimp only
        cases hddl : (adapt_column_type p.2 t).1 with
        | none => exact hc
        | some t2 => exact hc
  refine ⟨hcache, ?_⟩
  simp [get_table_columns, hcache]

/-- C7 witness: the amended theorem at the one-column table `A : NUMBER`
with a populated cache, altered to DOUBLE. -/
theorem c7_cache_never_invalidated_on_ddl_witness :
    ((adapt_column_type_stateful
        ⟨[("A", .NUMBER)], some [("A", .NUMBER)]⟩ "A" .DOUBLE).1).tableCache =
      some [("A", SqlType.NUMBER)] ∧
    (get_table_columns
        (adapt_column_type_stateful
          ⟨[("A", .NUMBER)], some [("A", .NUMBER)]⟩ "A" .DOUBLE).1).1 =
      [("A", SqlType.NUMBER)] :=
  c7_cache_never_invalidated_on_ddl
    ⟨[("A", .NUMBER)], some [("A", .NUMBER)]⟩ "A" .DOUBLE [("A", .NUMBER)] rfl

/-! ## PUT statements -/

/-- `SnowflakeConnector._get_put_statement` (`connector.py:346-348`): the
statement text carries the bound-parameter placeholder `:file_uri`; the
`file_uri` argument is deliberately unused in the text (`noqa: ARG002`). -/
def connectorPutStatementText (syncId fileUri : String) : String :=
  s!"put :file_uri '@~/target-snowflake/{syncId}'"

/-- `SnowflakeConnector.put_batches_to_stage` (`connector.py:474-489`):
one PUT execution per file, each passing the file URI exclusively through
the bound-parameter map `{"file_uri": file_uri}` (bound parameters are
used instead of interpolation; see the issue-87 comment at
`connector.py:487-488`). -/
def put_batches_to_stage (syncId : String) (files : List String) :
    List (String × List (String × String)) :=
  files.map fun fileUri =>
    (connectorPutStatementText syncId fileUri, [("file_uri", fileUri)])

/-- `SnowflakeSink._get_put_statement` (`sinks.py:281-283`): the file URI
is interpolated directly into the statement text. -/
def sinkPutStatementText (syncId fileUri : String) : String :=
  s!"put '{fileUri}' '@~/target-snowflake/{syncId}'"

/-- C9 counterexample: the PUT builder of `SnowflakeSink`
(`sinks.py:281-283`) interpolates the file URI into the statement text, so
two different URIs (same sync identity) yield different statement texts —
the claim's "exclusively a bound parameter, never interpolated" is false
for this PUT path. -/
theorem c9_counterexample_sink_put_interpolates :
    sinkPutStatementText "sync1" "file:///a.json.gz" ≠
      sinkPutStatementText "sync1" "file:///b.json.gz" ∧
    sinkPutStatementText "sync1" "file:///a.json.gz" =
      "put 'file:///a.json.gz' '@~/target-snowflake/sync1'" := by
  refine ⟨by decide, rfl⟩

/-- C9 (amended): the connector's PUT path
(`_get_put_statement`/`put_batches_to_stage`, `connector.py:346-348` and
`474-489`) passes the file URI exclusively as a bound parameter: the
statement text is identical for any two file URIs — it depends only on
the sync identity — and each executed PUT binds `file_uri` to its file's
URI; only the legacy sink-local PUT builder interpolates the URI into the
text. -/
theorem c9_connector_put_binds_uri (syncId u1 u2 : String) :
    connectorPutStatementText syncId u1 = connectorPutStatementText syncId u2 ∧
    put_batches_to_stage syncId [u1, u2] =
      [(connectorPutStatementText syncId u1, [("file_uri", u1)]),
       (connectorPutStatementText syncId u1, [("file_uri", u2)])] :=
  ⟨rfl, rfl⟩

/-! ## `create_empty_table` (`sinks.py:168-227`) -/

/-- One column of the created table: upper-cased name, mapped type and the
primary-key mark. -/
structure ColumnDef where
  name : String
  sqlType : SqlType
  isPrimaryKey : Bool
  deriving DecidableEq, Repr

inductive TableAction where
  | createSchemaIfNotExists (db sch : String)
  | useSchema (db sch : String)
  | createTable (name : String) (cols : List ColumnDef)
  deriving DecidableEq, Repr

inductive CreateTableError where
  | notImplemented
  | runtimeError (msg : String)
  deriving DecidableEq, Repr

/-- The fully qualified `database.schema.table` name the three parts of
`parse_full_table_name` came from. -/
def fullTableName (db sch tbl : String) : String :=
  db ++ "." ++ sch ++ "." ++ tbl

/-- The RuntimeError message of `create_empty_table` (`sinks.py:203-205`);
the Python message additionally appends the repr of the schema dict. -/
def noPropertiesMsg (db sch tbl : String) : String :=
  "Schema for '" ++ fullTableName db sch tbl ++ "' does not define properties"

/-- `SnowflakeConnector.create_empty_table` (`sinks.py:168-227`): raises
NotImplementedError first when `as_temp_table` is set; raises RuntimeError
naming the table when the schema mapping has no `properties` key; and
otherwise issues `create schema if not exists`, `use schema`, and the
CREATE TABLE with one upper-cased column per property, marking as primary
key exactly the columns listed in `primary_keys`. -/
def create_empty_table (db sch tbl : String)
    (properties : Option (List (String × JsonSchema)))
    (primaryKeys : List String) (asTempTable : Bool) :
    Except CreateTableError (List TableAction) :=
  if asTempTable then .error .notImplemented
  else
    match properties with
    | none => .error (.runtimeError (noPropertiesMsg db sch tbl))
    | some props =>
        .ok [.createSchemaIfNotExists (pyUpper db) (pyUpper sch),
             .useSchema (pyUpper db) (pyUpper sch),
             .createTable tbl (props.map fun p =>
               { name := pyUpper p.1
                 sqlType := to_sql_type p.2
                 isPrimaryKey := primaryKeys.contains p.1 })]

/-- C10: `create_empty_table` raises NotImplementedError before touching
the database whenever a temp table is requested; with no `properties` key
it raises a RuntimeError whose message names the table and issues no DDL;
otherwise it first issues the idempotent `create schema if not exists`
for the enclosing namespace and then creates the table with one
upper-cased column per schema property, marking exactly the listed
primary keys. -/
theorem c10_create_empty_table_behaviour (db sch tbl : String)
    (properties : Option (List (String × JsonSchema)))
    (props : List (String × JsonSchema)) (primaryKeys : List String) :
    create_empty_table db sch tbl properties primaryKeys true = .error .notImplemented ∧
    create_empty_table db sch tbl none primaryKeys false =
      .error (.runtimeError (noPropertiesMsg db sch tbl)) ∧
    (∃ a b, noPropertiesMsg db sch tbl = a ++ tbl ++ b) ∧
    create_empty_table db sch tbl (some props) primaryKeys false =
      .ok [.createSchemaIfNotExists (pyUpper db) (pyUpper sch),
           .useSchema (pyUpper db) (pyUpper sch),
           .createTable tbl (props.map fun p =>
             { name := pyUpper p.1
               sqlType := to_sql_type p.2
               isPrimaryKey := primaryKeys.contains p.1 })] ∧
    ((props.map fun p =>
        ColumnDef.mk (pyUpper p.1) (to_sql_type p.2) (primaryKeys.contains p.1)).filter
          (fun cd => cd.isPrimaryKey)).map ColumnDef.name =
      (props.filter fun p => primaryKeys.contains p.1).map fun p => pyUpper p.1 := by
  refine ⟨rfl, rfl, ?_, rfl, ?_⟩
  · refine ⟨"Schema for '" ++ db ++ "." ++ sch ++ ".", "' does not define properties", ?_⟩
    simp [noPropertiesMsg, fullTableName, String.append_assoc]
  · rw [List.filter_map, List.map_map]
    rfl

end TargetSnowflake
